import Mathlib

/-!
# Verification of the contact-form serverless function

Shallow embedding of the HTTP-triggered contact-form handler and its
validation/anti-abuse pipeline (rate limiting, honeypot, blocklist,
field validators, gibberish and URL heuristics, captcha gate, email
dispatch), together with theorems checking the claims of the specification
against the embedded code.

Conventions of the embedding:
* JavaScript strings become Lean `String`; optional/absent fields become
  `Option String` (`none` = the JSON field is absent / `undefined`).
* JavaScript truthiness of an optional string (`undefined`, `null` and
  `""` are falsy) is the helper `truthy`.
* Timestamps (`Date.now()`, millisecond counts) become `Nat`.
* The captcha score (a JSON number) becomes `Rat`, compared exactly
  against the `0.5` threshold; the consonant ratio comparison against
  `0.8` is likewise taken exactly (`5 * consonants > 4 * length`).
* The in-memory rate-limit `Map` becomes a function
  `String → Option RateLimitRecord`, updated functionally.
* The two outbound collaborators (captcha verification endpoint, email
  client) are parameters of the handler: `verify : String → CaptchaResult`
  and `send : EmailMessage → Except String Unit`.  The handler result
  records the dispatch calls and captcha calls actually made, so that
  "exactly one dispatch call" style properties are statable.
-/

namespace Contact

/-- JavaScript-style whitespace test (the `\s` character class restricted
to the characters that occur in this development). -/
def isSpaceChar (c : Char) : Bool :=
  c = ' ' || c = '\t' || c = '\n' || c = '\x0d' || c = '\x0b' || c = '\x0c'

/-- JavaScript `String.prototype.trim()`: strip whitespace from both
ends.  Embedded structurally (the `String.trim` of the library is not
kernel-reducible) over the same whitespace class as `isSpaceChar`. -/
def trimString (s : String) : String :=
  ⟨((s.data.dropWhile isSpaceChar).reverse.dropWhile isSpaceChar).reverse⟩

/-- JavaScript `String.prototype.toLowerCase()`, embedded structurally
(the `String.toLower` of the library is not kernel-reducible). -/
def toLowerString (s : String) : String :=
  ⟨s.data.map Char.toLower⟩

/-- JS truthiness of an optional string: `undefined` and `""` are falsy. -/
def truthy (v : Option String) : Bool :=
  match v with
  | none => false
  | some s => s ≠ ""

/-- Embeds `a || fallback` on optional strings with JS truthiness
(an empty string falls through to the fallback). -/
def truthyOr (v : Option String) (fallback : String) : String :=
  match v with
  | none => fallback
  | some s => if s = "" then fallback else s

/-! ## Data model (`ContactFormData`, rate-limit records, captcha results) -/

/-- The parsed JSON body of a submission (interface `ContactFormData`).
All fields may be absent in the incoming JSON, so every field is an
`Option String`; the handler itself enforces presence of the six
required fields. `website` is the honeypot field. -/
structure ContactFormData where
  firstName : Option String := none
  lastName : Option String := none
  email : Option String := none
  phone : Option String := none
  zipCode : Option String := none
  caseType : Option String := none
  description : Option String := none
  recaptchaToken : Option String := none
  website : Option String := none
  deriving Repr, DecidableEq

/-- One bucket of the rate-limit store: `{ count, resetTime }`. -/
structure RateLimitRecord where
  count : Nat
  resetTime : Nat
  deriving Repr, DecidableEq

/-- The rate-limit store (`Map<string, {count, resetTime}>`), embedded as a
function from identifiers to optional records. -/
def RateLimitStore : Type := String → Option RateLimitRecord

/-- The empty store (fresh process). -/
def emptyStore : RateLimitStore := fun _ => none

/-- Embeds `rateLimitStore.set(identifier, record)`. -/
def setStore (s : RateLimitStore) (identifier : String) (r : RateLimitRecord) :
    RateLimitStore :=
  fun x => if x = identifier then some r else s x

/-- Result of the captcha verification collaborator: `{success, score}`. -/
structure CaptchaResult where
  success : Bool
  score : Rat
  deriving Repr, DecidableEq

/-! ## Rate limiting (`checkRateLimit`) -/

/-- Embeds `checkRateLimit(identifier, maxRequests = 3, windowMs = 60000)`.
Returns the boolean result together with the store after the call
(the source mutates the module-level `Map` in place). -/
def checkRateLimit (store : RateLimitStore) (now : Nat) (identifier : String)
    (maxRequests : Nat := 3) (windowMs : Nat := 60000) :
    Bool × RateLimitStore :=
  match store identifier with
  | none => (true, setStore store identifier ⟨1, now + windowMs⟩)
  | some record =>
    if record.resetTime < now then
      (true, setStore store identifier ⟨1, now + windowMs⟩)
    else if maxRequests ≤ record.count then
      (false, store)
    else
      (true, setStore store identifier ⟨record.count + 1, record.resetTime⟩)

/-! ## Heuristic filters -/

/-- Membership in the vowel class `[aeiouAEIOU]`. -/
def isVowelChar (c : Char) : Bool :=
  c = 'a' || c = 'e' || c = 'i' || c = 'o' || c = 'u' ||
  c = 'A' || c = 'E' || c = 'I' || c = 'O' || c = 'U'

/-- Number of vowel characters of a string
(`(text.match(/[aeiouAEIOU]/g) || []).length`). -/
def vowelCount (text : String) : Nat :=
  (text.data.filter isVowelChar).length

/-- JavaScript line terminators, which `.` does NOT match in a regex
without the dot-all flag. -/
def isLineTerminator (c : Char) : Bool :=
  c = '\n' || c = '\x0d' || c = '\u2028' || c = '\u2029'

/-- Whether the character list contains a match of `/(.)\1{2,}/`: three or
more consecutive occurrences of one character, where that character is
not a line terminator (`.` does not match line terminators). -/
def hasTripleRepeat : List Char → Bool
  | a :: b :: c :: rest =>
    (!isLineTerminator a && a = b && b = c) || hasTripleRepeat (b :: c :: rest)
  | _ => false

/-- Embeds `isGibberish(text)`: the no-vowel or consonant-heavy or repeated-character
heuristic used on the name fields.  The float comparison
`consonantCount / text.length > 0.8` is embedded exactly as
`5 * consonantCount > 4 * text.length`. -/
def isGibberish (text : String) : Bool :=
  if text.length < 2 then false
  else
    let consonantCount := text.length - vowelCount text
    if vowelCount text = 0 || 4 * text.length < 5 * consonantCount then true
    else hasTripleRepeat text.data

/-- The top-level-domain alternation of the URL regex. -/
def tldList : List (List Char) :=
  ["com", "net", "org", "edu", "gov", "mil", "int", "co", "io", "ly",
   "me", "tv", "info", "biz", "name", "mobi", "tel", "travel"].map String.data

/-- Case-insensitive literal match: if the lowercase pattern `pat` matches
a prefix of `cs` (comparing `Char.toLower`), return the rest of `cs`. -/
def matchCI : List Char → List Char → Option (List Char)
  | [], cs => some cs
  | _ :: _, [] => none
  | p :: ps, c :: cs => if c.toLower = p then matchCI ps cs else none

/-- Whether one of the three alternatives of the URL regex
`/(https?:\/\/[^\s]+|www\.[^\s]+|[^\s]+\.(tld…)[^\s]*)/gi` matches
starting at the head of `cs`.  For the bare-domain alternative it is
enough to test a single non-space character before the dot, since the
scan below tries every start position. -/
def urlAltAt (cs : List Char) : Bool :=
  (match matchCI "http://".data cs with
   | some (c :: _) => !isSpaceChar c
   | _ => false) ||
  (match matchCI "https://".data cs with
   | some (c :: _) => !isSpaceChar c
   | _ => false) ||
  (match matchCI "www.".data cs with
   | some (c :: _) => !isSpaceChar c
   | _ => false) ||
  (match cs with
   | c :: '.' :: rest =>
     !isSpaceChar c && tldList.any (fun tld => (matchCI tld rest).isSome)
   | _ => false)

/-- Scan of every start position for a match of the URL regex. -/
def containsUrlsAux : List Char → Bool
  | [] => false
  | c :: rest => urlAltAt (c :: rest) || containsUrlsAux rest

/-- Embeds `containsUrls(text)`: whether the URL regex matches somewhere in the
text (the `g`/`i` flags: the regex literal is re-created per call, so
`test` is a plain search; matching is case-insensitive). -/
def containsUrls (text : String) : Bool :=
  containsUrlsAux text.data

/-! ## Field validators -/

/-- A character allowed in the atoms of the email regex: `[^\s@]`. -/
def emailAtomChar (c : Char) : Bool :=
  !isSpaceChar c && c ≠ '@'

/-- Embeds `isValidEmail(email)`, the regex `/^[^\s@]+@[^\s@]+\.[^\s@]+$/`.
Equivalently: exactly one `@`; a non-empty whitespace-free local part;
a whitespace-free domain part with a dot that is neither its first nor
its last character. -/
def isValidEmail (email : String) : Bool :=
  match email.data.splitOn '@' with
  | [loc, dom] =>
    !loc.isEmpty && loc.all emailAtomChar && dom.all emailAtomChar &&
    ((dom.drop 1).dropLast.contains '.')
  | _ => false

/-- Embeds `isValidPhone(phone)`: strip every non-digit character
(JS `phone.replace` of the non-digit class with the empty string) and
require at least ten remaining. -/
def isValidPhone (phone : String) : Bool :=
  let phoneDigits : String := ⟨phone.data.filter Char.isDigit⟩
  10 ≤ phoneDigits.length

/-- Embeds `isValidZipCode(zipCode)`, the regex `/^\d{5}(-\d{4})?$/`. -/
def isValidZipCode (zipCode : String) : Bool :=
  let cs := zipCode.data
  (cs.length = 5 && cs.all Char.isDigit) ||
  (cs.length = 10 && (cs.take 5).all Char.isDigit &&
    (match cs.drop 5 with
     | '-' :: ds => ds.all Char.isDigit
     | _ => false))

/-! ## Module-level constants -/

/-- The `BLOCKED_EMAILS` deny-list (all lowercase, matched case-insensitively). -/
def BLOCKED_EMAILS : List String :=
  ["jacobroyvisser55@gmail.com", "jacobvisser45@gmail.com"]

/-- The `RECIPIENT_ADDRESSES` constant: the hard-wired recipient list. -/
def RECIPIENT_ADDRESSES : List String :=
  ["brad@bullattorneys.com", "sudheer@bullattorneys.com", "web@bullattorneys.com"]

/-- The fallback sender address used when `SENDER_EMAIL_ADDRESS` is unset. -/
def DEFAULT_SENDER : String :=
  "DoNotReply@2dde48cf-f3cb-436b-838a-1c27aa0e1c0c.azurecomm.net"

/-- The environment-supplied configuration surface of the function
(`process.env` reads at module load). -/
structure HandlerConfig where
  acsConnectionString : Option String := none
  senderEmailAddress : Option String := none
  recaptchaSecretKey : Option String := none

/-- Embeds `SENDER_ADDRESS = process.env.SENDER_EMAIL_ADDRESS || "DoNotReply@…"`. -/
def senderAddress (cfg : HandlerConfig) : String :=
  truthyOr cfg.senderEmailAddress DEFAULT_SENDER

/-! ## The inbound request and the observable outcome of the handler -/

/-- The parts of the inbound `HttpRequest` the handler reads.  `body` is
the result of `JSON.parse` on the request text: `none` when parsing
throws. -/
structure HandlerRequest where
  method : String
  xForwardedFor : Option String := none
  xRealIp : Option String := none
  body : Option ContactFormData := none

/-- The JSON body of the `HttpResponseInit` the handler returns. -/
inductive ResponseBody where
  /-- The CORS preflight response has no body. -/
  | preflight : ResponseBody
  /-- The body `JSON.stringify({ error: msg })`. -/
  | errorMsg (msg : String) : ResponseBody
  /-- The body `JSON.stringify({ error: msg, details: details })`. -/
  | errorWithDetails (msg details : String) : ResponseBody
  /-- The success body: success true with the message "Form submitted successfully". -/
  | success : ResponseBody
  deriving Repr, DecidableEq

/-- The message handed to `emailClient.beginSend`. -/
structure EmailMessage where
  senderAddress : String
  subject : String
  html : String
  recipients : List String
  deriving Repr, DecidableEq

/-- The observable outcome of one handler invocation: HTTP status and
body, the rate-limit store after the call, and the calls made to the two
outbound collaborators (in order). -/
structure HandlerOutcome where
  status : Nat
  body : ResponseBody
  store : RateLimitStore
  dispatches : List EmailMessage
  captchaCalls : List String

/-! ## Field-presence and length validation -/

/-- The `requiredFields` list with its accessors, in source order. -/
def requiredFields : List (String × (ContactFormData → Option String)) :=
  [("firstName", ContactFormData.firstName),
   ("lastName", ContactFormData.lastName),
   ("email", ContactFormData.email),
   ("phone", ContactFormData.phone),
   ("zipCode", ContactFormData.zipCode),
   ("caseType", ContactFormData.caseType)]

/-- Embeds the check `!formData[field]` or the trimmed field being empty. -/
def isFieldMissing (v : Option String) : Bool :=
  match v with
  | none => true
  | some s => s = "" || trimString s = ""

/-- The first required field that is absent or blank, if any. -/
def firstMissingField (fd : ContactFormData) : Option String :=
  (requiredFields.find? (fun p => isFieldMissing (p.2 fd))).map (·.1)

/-- The `maxLengths` entries (name, limit, accessor), in source order. -/
def maxLengths : List (String × Nat × (ContactFormData → Option String)) :=
  [("firstName", 50, ContactFormData.firstName),
   ("lastName", 50, ContactFormData.lastName),
   ("email", 100, ContactFormData.email),
   ("phone", 20, ContactFormData.phone),
   ("zipCode", 10, ContactFormData.zipCode),
   ("caseType", 50, ContactFormData.caseType),
   ("description", 1200, ContactFormData.description)]

/-- Embeds the check `value && String(value).length > maxLength`. -/
def isTooLong (v : Option String) (maxLength : Nat) : Bool :=
  match v with
  | none => false
  | some s => s ≠ "" && maxLength < s.length

/-- The first field exceeding its length limit, with that limit. -/
def firstTooLong (fd : ContactFormData) : Option (String × Nat) :=
  ((maxLengths.find? (fun p => isTooLong (p.2.2 fd) p.2.1)).map
    (fun p => (p.1, p.2.1)))

/-! ## Email rendering and the dispatch stage -/

/-- The HTML body template of the notification email.  The
`new Date().toLocaleString(…)` timestamp is an environment input of the
handler, passed in as `submittedAt`. -/
def emailBodyHtml (fd : ContactFormData) (clientIp submittedAt : String) :
    String :=
  "\n      <h2>New Contact Form Submission</h2>\n      " ++
  "<p><strong>Name:</strong> " ++ fd.firstName.getD "" ++ " " ++
    fd.lastName.getD "" ++ "</p>\n      " ++
  "<p><strong>Email:</strong> " ++ fd.email.getD "" ++ "</p>\n      " ++
  "<p><strong>Phone:</strong> " ++ fd.phone.getD "" ++ "</p>\n      " ++
  "<p><strong>Zip Code:</strong> " ++ fd.zipCode.getD "" ++ "</p>\n      " ++
  "<p><strong>Case Type:</strong> " ++ fd.caseType.getD "" ++ "</p>\n      " ++
  (match fd.description with
   | some d =>
     if d = "" then ""
     else "<p><strong>Description:</strong><br>" ++
       d.replace "\n" "<br>" ++ "</p>"
   | none => "") ++ "\n      " ++
  "<p><strong>Submitted:</strong> " ++ submittedAt ++ "</p>\n      " ++
  "<p><strong>IP Address:</strong> " ++ clientIp ++ "</p>\n    "

/-- The email message built from a submission (lines 383–392 of the
handler). -/
def buildEmailMessage (cfg : HandlerConfig) (fd : ContactFormData)
    (clientIp submittedAt : String) : EmailMessage :=
  { senderAddress := senderAddress cfg
    subject := "New Contact Form Submission - " ++ fd.caseType.getD ""
    html := emailBodyHtml fd clientIp submittedAt
    recipients := RECIPIENT_ADDRESSES }

/-- The final stage of the pipeline (connection-string check, email
dispatch, terminal responses): lines 348–426 of the handler.  `store` is the
rate-limit store after the rate-limit call. -/
def emailStage (cfg : HandlerConfig) (fd : ContactFormData)
    (clientIp : String) (store : RateLimitStore)
    (send : EmailMessage → Except String Unit) (submittedAt : String) :
    HandlerOutcome :=
  if !truthy cfg.acsConnectionString then
    ⟨500, .errorMsg "Email service not configured", store, [], []⟩
  else
    let msg := buildEmailMessage cfg fd clientIp submittedAt
    match send msg with
    | .error e =>
      ⟨500, .errorWithDetails "Failed to send email" e, store, [msg], []⟩
    | .ok _ =>
      ⟨200, .success, store, [msg], []⟩

/-- The captcha gate followed by the dispatch stage: lines 320–426 of the
handler.  `store` is the rate-limit store after the rate-limit call.
When a token is present it is verified through the collaborator
`verify`; with no (or an empty, hence falsy) token the captcha step is
skipped and control falls through to the email stage. -/
def captchaStage (cfg : HandlerConfig) (fd : ContactFormData)
    (clientIp : String) (store : RateLimitStore)
    (verify : String → CaptchaResult)
    (send : EmailMessage → Except String Unit) (submittedAt : String) :
    HandlerOutcome :=
  if truthy fd.recaptchaToken then
    let t := fd.recaptchaToken.getD ""
    if !truthy cfg.recaptchaSecretKey then
      ⟨500, .errorMsg "reCAPTCHA not configured", store, [], []⟩
    else
      let r := verify t
      if !r.success || r.score < (1 : Rat) / 2 then
        ⟨400, .errorMsg "reCAPTCHA validation failed", store, [], [t]⟩
      else
        let out := emailStage cfg fd clientIp store send submittedAt
        { out with captchaCalls := [t] }
  else
    emailStage cfg fd clientIp store send submittedAt

/-! ## The request handler (`contactForm`) -/

/-- The full request handler pipeline, in source order: CORS preflight,
method gate, body parse, honeypot, blocklist, rate limit, required
fields, length limits, email/phone/zip formats, gibberish names, URLs in
the description, optional captcha, then email dispatch. -/
def contactForm (cfg : HandlerConfig) (req : HandlerRequest)
    (store : RateLimitStore) (now : Nat)
    (verify : String → CaptchaResult)
    (send : EmailMessage → Except String Unit)
    (submittedAt : String) : HandlerOutcome :=
  if req.method = "OPTIONS" then
    ⟨200, .preflight, store, [], []⟩
  else if req.method ≠ "POST" then
    ⟨405, .errorMsg "Method not allowed", store, [], []⟩
  else
    let clientIp := truthyOr req.xForwardedFor (truthyOr req.xRealIp "unknown")
    match req.body with
    | none => ⟨400, .errorMsg "Invalid request format", store, [], []⟩
    | some fd =>
      if truthy fd.website && trimString (fd.website.getD "") ≠ "" then
        ⟨400, .errorMsg "Spam detected", store, [], []⟩
      else if truthy fd.email &&
          BLOCKED_EMAILS.contains (toLowerString (fd.email.getD "")) then
        ⟨400, .errorMsg "Email not allowed", store, [], []⟩
      else
        let rl := checkRateLimit store now clientIp 3 60000
        if !rl.1 then
          ⟨429, .errorMsg "Too many requests. Please try again later.",
            rl.2, [], []⟩
        else
          match firstMissingField fd with
          | some f => ⟨400, .errorMsg (f ++ " is required"), rl.2, [], []⟩
          | none =>
            match firstTooLong fd with
            | some (f, m) =>
              ⟨400, .errorMsg (f ++ " is too long (max " ++ toString m ++
                " characters)"), rl.2, [], []⟩
            | none =>
              if !isValidEmail (fd.email.getD "") then
                ⟨400, .errorMsg "Invalid email format", rl.2, [], []⟩
              else if !isValidPhone (fd.phone.getD "") then
                ⟨400, .errorMsg "Invalid phone number", rl.2, [], []⟩
              else if !isValidZipCode (fd.zipCode.getD "") then
                ⟨400, .errorMsg "Invalid zip code format", rl.2, [], []⟩
              else if isGibberish (fd.firstName.getD "") ||
                  isGibberish (fd.lastName.getD "") then
                ⟨400, .errorMsg "Please enter valid names", rl.2, [], []⟩
              else if truthy fd.description &&
                  containsUrls (fd.description.getD "") then
                ⟨400, .errorMsg "URLs are not allowed in the description",
                  rl.2, [], []⟩
              else
                captchaStage cfg fd clientIp rl.2 verify send submittedAt

/-! ## Claim-side definitions (phrasings taken from the specification,
to be compared with the embedded code) -/

/-- The client identifier used for rate limiting:
`x-forwarded-for || x-real-ip || "unknown"`. -/
def clientIpOf (req : HandlerRequest) : String :=
  truthyOr req.xForwardedFor (truthyOr req.xRealIp "unknown")

/-- Conjunction of every per-field check of the pipeline between the
honeypot gate and the URL-in-description gate: honeypot clear, email not
blocklisted, the six required fields present and non-blank, no field
over its length limit, valid email/phone/zip formats, non-gibberish
names.  These are exactly the conditions of the corresponding `if`s of
the handler. -/
def passesFieldChecks (fd : ContactFormData) : Prop :=
  (truthy fd.website && trimString (fd.website.getD "") ≠ "") = false ∧
  (truthy fd.email && BLOCKED_EMAILS.contains (toLowerString (fd.email.getD "")))
    = false ∧
  firstMissingField fd = none ∧
  firstTooLong fd = none ∧
  isValidEmail (fd.email.getD "") = true ∧
  isValidPhone (fd.phone.getD "") = true ∧
  isValidZipCode (fd.zipCode.getD "") = true ∧
  (isGibberish (fd.firstName.getD "") || isGibberish (fd.lastName.getD ""))
    = false

instance (fd : ContactFormData) : Decidable (passesFieldChecks fd) := by
  unfold passesFieldChecks; infer_instance

/-- Stores reachable by some sequence of `checkRateLimit` calls with
`maxRequests = 3`, starting from the empty store of a fresh process. -/
inductive ReachableStore : RateLimitStore → Prop where
  | init : ReachableStore emptyStore
  | step (s : RateLimitStore) (now : Nat) (identifier : String)
      (windowMs : Nat) : ReachableStore s →
      ReachableStore (checkRateLimit s now identifier 3 windowMs).2

/-- The phrasing used by the specification for a run of three or more identical
consecutive characters: some character occurs (at least) three times in
a row. -/
def HasRunOfThree (l : List Char) : Prop :=
  ∃ pre c suf, l = pre ++ c :: c :: c :: suf

/-- The consonant-to-length ratio as phrased by the specification, as an exact rational:
number of non-vowel characters over total length. -/
def consonantShare (text : String) : Rat :=
  ((text.length - vowelCount text : Nat) : Rat) / (text.length : Rat)

/-- The count, as phrased by the specification, of digits remaining once all non-digit
characters are removed. -/
def digitCount (phone : String) : Nat :=
  phone.data.countP Char.isDigit

/-! ## Concrete fixtures used to instantiate the theorems -/

/-- A well-formed submission. -/
def goodSubmission : ContactFormData :=
  { firstName := some "John", lastName := some "Doe",
    email := some "john@doe.org", phone := some "3166844400",
    zipCode := some "67202", caseType := some "Injury",
    description := some "I was hurt" }

/-- A submission distinguished only by a filled honeypot field. -/
def spamSubmission : ContactFormData :=
  { website := some "http://spam.biz" }

/-- A fully configured environment. -/
def testConfig : HandlerConfig :=
  { acsConnectionString := some "endpoint=test",
    senderEmailAddress := none,
    recaptchaSecretKey := some "secret" }

/-- A POST request carrying the given parsed body. -/
def postReq (fd : ContactFormData) : HandlerRequest :=
  { method := "POST", xForwardedFor := some "1.2.3.4",
    xRealIp := none, body := some fd }

/-- An email collaborator that always succeeds. -/
def okSend : EmailMessage → Except String Unit := fun _ => .ok ()

/-- A captcha collaborator that always reports a human. -/
def passVerify : String → CaptchaResult := fun _ => ⟨true, 1⟩

/-- A captcha collaborator that reports a score below the threshold. -/
def lowScoreVerify : String → CaptchaResult := fun _ => ⟨true, 1 / 4⟩

/-- The well-formed submission with a link-carrying description. -/
def urlSubmission : ContactFormData :=
  { goodSubmission with description := some "Check out http://example.com" }

/-- The well-formed submission with a captcha token. -/
def tokenSubmission : ContactFormData :=
  { goodSubmission with recaptchaToken := some "tok" }

/-- The test environment without a captcha secret. -/
def noSecretConfig : HandlerConfig :=
  { testConfig with recaptchaSecretKey := none }

/-! ## Lemmas about the rate limiter -/

theorem setStore_same (s : RateLimitStore) (identifier : String)
    (r : RateLimitRecord) : setStore s identifier r identifier = some r := by
  simp [setStore]

theorem checkRateLimit_fresh (s : RateLimitStore) (now : Nat)
    (identifier : String) (mr w : Nat) (h : s identifier = none) :
    checkRateLimit s now identifier mr w =
      (true, setStore s identifier ⟨1, now + w⟩) := by
  unfold checkRateLimit
  rw [h]

theorem checkRateLimit_expired (s : RateLimitStore) (now : Nat)
    (identifier : String) (mr w : Nat) (r : RateLimitRecord)
    (h : s identifier = some r) (hx : r.resetTime < now) :
    checkRateLimit s now identifier mr w =
      (true, setStore s identifier ⟨1, now + w⟩) := by
  unfold checkRateLimit
  rw [h]
  simp [hx]

theorem checkRateLimit_deny (s : RateLimitStore) (now : Nat)
    (identifier : String) (mr w : Nat) (r : RateLimitRecord)
    (h : s identifier = some r) (hx : ¬ r.resetTime < now)
    (hc : mr ≤ r.count) :
    checkRateLimit s now identifier mr w = (false, s) := by
  unfold checkRateLimit
  rw [h]
  simp [hx, hc]

theorem checkRateLimit_incr (s : RateLimitStore) (now : Nat)
    (identifier : String) (mr w : Nat) (r : RateLimitRecord)
    (h : s identifier = some r) (hx : ¬ r.resetTime < now)
    (hc : ¬ mr ≤ r.count) :
    checkRateLimit s now identifier mr w =
      (true, setStore s identifier ⟨r.count + 1, r.resetTime⟩) := by
  unfold checkRateLimit
  rw [h]
  simp [hx, hc]

/-! ## C2: the 3-per-minute window scenario -/

/-- C2: with `maxRequests = 3` and `windowMs = 60000` and a fixed
identifier, starting from no record or an expired one: three calls
within the window all return `true`, the fourth returns `false`, and a
call after the expiry of the window returns `true` and resets the record to
count 1 with expiry `now + windowMs`. -/
theorem checkRateLimit_window_scenario (s0 : RateLimitStore)
    (identifier : String) (t1 t2 t3 t4 t5 : Nat)
    (h0 : s0 identifier = none ∨
      ∃ r, s0 identifier = some r ∧ r.resetTime < t1)
    (h2 : t2 ≤ t1 + 60000) (h3 : t3 ≤ t1 + 60000) (h4 : t4 ≤ t1 + 60000)
    (h5 : t1 + 60000 < t5) :
    (checkRateLimit s0 t1 identifier 3 60000).1 = true ∧
    (checkRateLimit (checkRateLimit s0 t1 identifier 3 60000).2
      t2 identifier 3 60000).1 = true ∧
    (checkRateLimit (checkRateLimit (checkRateLimit s0 t1 identifier
      3 60000).2 t2 identifier 3 60000).2 t3 identifier 3 60000).1 = true ∧
    (checkRateLimit (checkRateLimit (checkRateLimit (checkRateLimit s0 t1
      identifier 3 60000).2 t2 identifier 3 60000).2 t3 identifier
      3 60000).2 t4 identifier 3 60000).1 = false ∧
    (checkRateLimit (checkRateLimit (checkRateLimit (checkRateLimit
      (checkRateLimit s0 t1 identifier 3 60000).2 t2 identifier
      3 60000).2 t3 identifier 3 60000).2 t4 identifier 3 60000).2
      t5 identifier 3 60000).1 = true ∧
    (checkRateLimit (checkRateLimit (checkRateLimit (checkRateLimit
      (checkRateLimit s0 t1 identifier 3 60000).2 t2 identifier
      3 60000).2 t3 identifier 3 60000).2 t4 identifier 3 60000).2
      t5 identifier 3 60000).2 identifier = some ⟨1, t5 + 60000⟩ := by
  have e1 : checkRateLimit s0 t1 identifier 3 60000 =
      (true, setStore s0 identifier ⟨1, t1 + 60000⟩) := by
    rcases h0 with h | ⟨r, hr, hx⟩
    · exact checkRateLimit_fresh s0 t1 identifier 3 60000 h
    · exact checkRateLimit_expired s0 t1 identifier 3 60000 r hr hx
  have m1 : (checkRateLimit s0 t1 identifier 3 60000).2 identifier =
      some ⟨1, t1 + 60000⟩ := by
    rw [e1]; exact setStore_same _ _ _
  have e2 : checkRateLimit (checkRateLimit s0 t1 identifier 3 60000).2 t2
      identifier 3 60000 =
      (true, setStore (checkRateLimit s0 t1 identifier 3 60000).2
        identifier ⟨2, t1 + 60000⟩) :=
    checkRateLimit_incr _ t2 identifier 3 60000 _ m1
      (by simpa using h2) (by simp)
  have m2 : (checkRateLimit (checkRateLimit s0 t1 identifier 3 60000).2 t2
      identifier 3 60000).2 identifier = some ⟨2, t1 + 60000⟩ := by
    rw [e2]; exact setStore_same _ _ _
  have e3 : checkRateLimit (checkRateLimit (checkRateLimit s0 t1 identifier
      3 60000).2 t2 identifier 3 60000).2 t3 identifier 3 60000 =
      (true, setStore _ identifier ⟨3, t1 + 60000⟩) :=
    checkRateLimit_incr _ t3 identifier 3 60000 _ m2
      (by simpa using h3) (by simp)
  have m3 : (checkRateLimit (checkRateLimit (checkRateLimit s0 t1
      identifier 3 60000).2 t2 identifier 3 60000).2 t3 identifier
      3 60000).2 identifier = some ⟨3, t1 + 60000⟩ := by
    rw [e3]; exact setStore_same _ _ _
  have e4 : checkRateLimit (checkRateLimit (checkRateLimit (checkRateLimit
      s0 t1 identifier 3 60000).2 t2 identifier 3 60000).2 t3 identifier
      3 60000).2 t4 identifier 3 60000 = (false, _) :=
    checkRateLimit_deny _ t4 identifier 3 60000 _ m3
      (by simpa using h4) (by simp)
  have m4 : (checkRateLimit (checkRateLimit (checkRateLimit (checkRateLimit
      s0 t1 identifier 3 60000).2 t2 identifier 3 60000).2 t3 identifier
      3 60000).2 t4 identifier 3 60000).2 identifier =
      some ⟨3, t1 + 60000⟩ := by
    rw [e4]; exact m3
  have e5 : checkRateLimit (checkRateLimit (checkRateLimit (checkRateLimit
      (checkRateLimit s0 t1 identifier 3 60000).2 t2 identifier
      3 60000).2 t3 identifier 3 60000).2 t4 identifier 3 60000).2 t5
      identifier 3 60000 = (true, setStore _ identifier ⟨1, t5 + 60000⟩) :=
    checkRateLimit_expired _ t5 identifier 3 60000 _ m4 (by simpa using h5)
  refine ⟨by rw [e1], by rw [e2], by rw [e3], by rw [e4], by rw [e5],
    by rw [e5]; exact setStore_same _ _ _⟩

/-- Witness for C2 at a fully concrete input. -/
theorem checkRateLimit_window_scenario_witness :
    (checkRateLimit emptyStore 0 "ip" 3 60000).1 = true ∧
    (checkRateLimit (checkRateLimit emptyStore 0 "ip" 3 60000).2
      10 "ip" 3 60000).1 = true ∧
    (checkRateLimit (checkRateLimit (checkRateLimit emptyStore 0 "ip"
      3 60000).2 10 "ip" 3 60000).2 20 "ip" 3 60000).1 = true ∧
    (checkRateLimit (checkRateLimit (checkRateLimit (checkRateLimit
      emptyStore 0 "ip" 3 60000).2 10 "ip" 3 60000).2 20 "ip"
      3 60000).2 30 "ip" 3 60000).1 = false ∧
    (checkRateLimit (checkRateLimit (checkRateLimit (checkRateLimit
      (checkRateLimit emptyStore 0 "ip" 3 60000).2 10 "ip"
      3 60000).2 20 "ip" 3 60000).2 30 "ip" 3 60000).2
      60001 "ip" 3 60000).1 = true ∧
    (checkRateLimit (checkRateLimit (checkRateLimit (checkRateLimit
      (checkRateLimit emptyStore 0 "ip" 3 60000).2 10 "ip"
      3 60000).2 20 "ip" 3 60000).2 30 "ip" 3 60000).2
      60001 "ip" 3 60000).2 "ip" = some ⟨1, 60001 + 60000⟩ :=
  checkRateLimit_window_scenario emptyStore "ip" 0 10 20 30 60001
    (Or.inl rfl) (by omega) (by omega) (by omega) (by omega)

/-! ## C10: denied requests leave the store untouched -/

/-- C10: whenever `checkRateLimit` returns `false`, the store is left
completely unchanged — in particular the record of the denied identifier
keeps both its count and its reset time — so denied requests do not
extend the lockout, and a later call after the expiry of the record is
allowed again. -/
theorem checkRateLimit_denied_frame (s : RateLimitStore) (now : Nat)
    (identifier : String) (mr w : Nat)
    (h : (checkRateLimit s now identifier mr w).1 = false) :
    (checkRateLimit s now identifier mr w).2 = s ∧
    ∀ t r, (checkRateLimit s now identifier mr w).2 identifier = some r →
      r.resetTime < t →
      (checkRateLimit (checkRateLimit s now identifier mr w).2 t identifier
        mr w).1 = true := by
  have hs : (checkRateLimit s now identifier mr w).2 = s := by
    rcases hr : s identifier with _ | r
    · rw [checkRateLimit_fresh s now identifier mr w hr] at h
      simp at h
    · by_cases hx : r.resetTime < now
      · rw [checkRateLimit_expired s now identifier mr w r hr hx] at h
        simp at h
      · by_cases hc : mr ≤ r.count
        · rw [checkRateLimit_deny s now identifier mr w r hr hx hc]
        · rw [checkRateLimit_incr s now identifier mr w r hr hx hc] at h
          simp at h
  refine ⟨hs, fun t r hr hx => ?_⟩
  rw [hs] at hr ⊢
  rw [checkRateLimit_expired s t identifier mr w r hr hx]

/-- Witness for C10: a denied call on a full bucket leaves the store
unchanged, and the call after expiry is allowed. -/
theorem checkRateLimit_denied_frame_witness :
    (checkRateLimit (setStore emptyStore "a" ⟨3, 60000⟩) 500 "a"
      3 60000).2 = setStore emptyStore "a" ⟨3, 60000⟩ ∧
    (checkRateLimit (checkRateLimit (setStore emptyStore "a" ⟨3, 60000⟩)
      500 "a" 3 60000).2 60001 "a" 3 60000).1 = true := by
  have h := checkRateLimit_denied_frame (setStore emptyStore "a"
    ⟨3, 60000⟩) 500 "a" 3 60000 (by decide)
  exact ⟨h.1, h.2 60001 ⟨3, 60000⟩ (by rw [h.1]; decide) (by decide)⟩

/-! ## C9: the count invariant of reachable stores -/

/-- C9: after any sequence of `checkRateLimit` calls with
`maxRequests = 3`, every record present in the store has
`1 ≤ count ≤ 3`; a denied call never pushes a count past the maximum. -/
theorem rateLimit_count_invariant (s : RateLimitStore)
    (h : ReachableStore s) :
    ∀ identifier r, s identifier = some r → 1 ≤ r.count ∧ r.count ≤ 3 := by
  induction h with
  | init =>
    intro identifier r hr
    exact absurd hr (by simp [emptyStore])
  | step s now stepId w hs ih =>
    intro identifier r hr
    rcases hb : s stepId with _ | rec
    · rw [checkRateLimit_fresh s now stepId 3 w hb] at hr
      simp only [setStore] at hr
      by_cases hid : identifier = stepId
      · rw [if_pos hid] at hr
        cases hr
        have h2 : (1 : Nat) ≤ 3 := by omega
        exact ⟨Nat.le_refl 1, h2⟩
      · rw [if_neg hid] at hr
        exact ih identifier r hr
    · by_cases hx : rec.resetTime < now
      · rw [checkRateLimit_expired s now stepId 3 w rec hb hx] at hr
        simp only [setStore] at hr
        by_cases hid : identifier = stepId
        · rw [if_pos hid] at hr
          cases hr
          have h2 : (1 : Nat) ≤ 3 := by omega
          exact ⟨Nat.le_refl 1, h2⟩
        · rw [if_neg hid] at hr
          exact ih identifier r hr
      · by_cases hc : (3 : Nat) ≤ rec.count
        · rw [checkRateLimit_deny s now stepId 3 w rec hb hx hc] at hr
          exact ih identifier r hr
        · rw [checkRateLimit_incr s now stepId 3 w rec hb hx hc] at hr
          simp only [setStore] at hr
          by_cases hid : identifier = stepId
          · rw [if_pos hid] at hr
            cases hr
            have h1 : 1 ≤ rec.count + 1 := by omega
            have h2 : rec.count + 1 ≤ 3 := by omega
            exact ⟨h1, h2⟩
          · rw [if_neg hid] at hr
            exact ih identifier r hr

/-- Witness for C9 on a concrete reachable store. -/
theorem rateLimit_count_invariant_witness :
    1 ≤ (RateLimitRecord.mk 1 61000).count ∧
      (RateLimitRecord.mk 1 61000).count ≤ 3 :=
  rateLimit_count_invariant _
    (ReachableStore.step emptyStore 1000 "a" 60000 ReachableStore.init)
    "a" ⟨1, 61000⟩ (by decide)

/-! ## C8: the phone validator counts digits -/

/-- C8: `isValidPhone` accepts exactly the strings with at least ten
digit characters (all non-digit characters are stripped first); in
particular it accepts `"(316) 684-4400"` and rejects `"12345"`. -/
theorem isValidPhone_digit_count :
    (∀ phone : String, isValidPhone phone = true ↔ 10 ≤ digitCount phone) ∧
    isValidPhone "(316) 684-4400" = true ∧
    isValidPhone "12345" = false := by
  refine ⟨fun phone => ?_, by decide, by decide⟩
  unfold isValidPhone digitCount
  simp [String.length, List.countP_eq_length_filter]

/-! ## C4: the gibberish heuristic -/

theorem vowelCount_le_length (text : String) :
    vowelCount text ≤ text.length := by
  obtain ⟨l⟩ := text
  exact List.length_filter_le isVowelChar l

/-- The repeated-character scan finds exactly the runs of three identical
consecutive non-line-terminator characters. -/
theorem hasTripleRepeat_iff (l : List Char) :
    hasTripleRepeat l = true ↔
      ∃ pre c suf, l = pre ++ c :: c :: c :: suf ∧
        isLineTerminator c = false := by
  induction l with
  | nil =>
    rw [show hasTripleRepeat [] = false from rfl]
    simp only [Bool.false_eq_true, false_iff]
    rintro ⟨pre, c, suf, heq, -⟩
    have hlen := congrArg List.length heq
    simp only [List.length_nil, List.length_append, List.length_cons]
      at hlen
    omega
  | cons a t ih =>
    match t with
    | [] =>
      rw [show hasTripleRepeat [a] = false from rfl]
      simp only [Bool.false_eq_true, false_iff]
      rintro ⟨pre, c, suf, heq, -⟩
      have hlen := congrArg List.length heq
      simp only [List.length_nil, List.length_append, List.length_cons]
        at hlen
      omega
    | [b] =>
      rw [show hasTripleRepeat [a, b] = false from rfl]
      simp only [Bool.false_eq_true, false_iff]
      rintro ⟨pre, c, suf, heq, -⟩
      have hlen := congrArg List.length heq
      simp only [List.length_nil, List.length_append, List.length_cons]
        at hlen
      omega
    | b :: c :: t3 =>
      constructor
      · intro h
        rcases Bool.or_eq_true _ _ |>.mp h with h1 | h1
        · have ha : isLineTerminator a = false := by
            rcases Bool.and_eq_true _ _ |>.mp
              (Bool.and_eq_true _ _ |>.mp h1).1 with ⟨hna, -⟩
            simpa using hna
          have hab : a = b := by
            have := (Bool.and_eq_true _ _ |>.mp
              (Bool.and_eq_true _ _ |>.mp h1).1).2
            simpa using this
          have hbc : b = c := by
            have := (Bool.and_eq_true _ _ |>.mp h1).2
            simpa using this
          exact ⟨[], a, t3, by rw [hab, hbc]; simp [hab, hbc], ha⟩
        · rcases ih.mp h1 with ⟨pre, ch, suf, heq, hch⟩
          exact ⟨a :: pre, ch, suf, by rw [List.cons_append, heq], hch⟩
      · rintro ⟨pre, ch, suf, heq, hch⟩
        cases pre with
        | nil =>
          simp only [List.nil_append, List.cons.injEq] at heq
          rcases heq with ⟨ha, hb, hc, -⟩
          apply Bool.or_eq_true _ _ |>.mpr
          left
          subst ha hb hc
          simp [hch]
        | cons p ps =>
          simp only [List.cons_append, List.cons.injEq] at heq
          rcases heq with ⟨-, heq⟩
          apply Bool.or_eq_true _ _ |>.mpr
          right
          exact ih.mpr ⟨ps, ch, suf, heq, hch⟩

/-- The exact-rational consonant ratio exceeds `0.8` precisely when the
cross-multiplied Nat comparison of the embedding holds. -/
theorem consonantShare_gt_iff (text : String) (h : 0 < text.length) :
    consonantShare text > 0.8 ↔
      4 * text.length < 5 * (text.length - vowelCount text) := by
  unfold consonantShare
  have hpos : (0 : Rat) < (text.length : Rat) := by exact_mod_cast h
  rw [gt_iff_lt, lt_div_iff₀ hpos]
  constructor
  · intro hlt
    have hq : (4 * text.length : Rat) <
        5 * ((text.length - vowelCount text : Nat) : Rat) := by
      push_cast at hlt ⊢
      linarith
    exact_mod_cast hq
  · intro hlt
    have hq : (4 * text.length : Rat) <
        5 * ((text.length - vowelCount text : Nat) : Rat) := by
      exact_mod_cast hlt
    push_cast at hq ⊢
    linarith

/-- Restates `isGibberish` as one Boolean expression. -/
theorem isGibberish_eq (text : String) :
    isGibberish text =
      (decide (2 ≤ text.length) &&
        (decide (vowelCount text = 0) ||
         decide (4 * text.length < 5 * (text.length - vowelCount text)) ||
         hasTripleRepeat text.data)) := by
  unfold isGibberish
  by_cases h : text.length < 2
  · have h2 : ¬ 2 ≤ text.length := by omega
    simp [h, h2]
  · have h2 : 2 ≤ text.length := by omega
    by_cases hv : vowelCount text = 0
    · simp [h, h2, hv]
    · by_cases hr : 4 * text.length < 5 * (text.length - vowelCount text)
      · simp [h, h2, hv, hr]
      · simp [h, h2, hv, hr]

/-- C4 (amended): `isGibberish text` is true iff `text` has length at
least 2 and (it has zero vowel characters, or its non-vowel-to-length
ratio exceeds `0.8`, or it contains a run of three or more identical
consecutive characters *that are not line terminators* — the repeat
pattern `.` does not match line terminators).  In particular it is
false for every empty or single-character string. -/
theorem isGibberish_characterization (text : String) :
    isGibberish text = true ↔
      2 ≤ text.length ∧
        (vowelCount text = 0 ∨ consonantShare text > 0.8 ∨
          ∃ pre c suf, text.data = pre ++ c :: c :: c :: suf ∧
            isLineTerminator c = false) := by
  rw [isGibberish_eq]
  simp only [Bool.and_eq_true, Bool.or_eq_true, decide_eq_true_eq]
  constructor
  · rintro ⟨h2, hd⟩
    refine ⟨h2, ?_⟩
    rcases hd with (hv | hrat) | hrun
    · exact Or.inl hv
    · exact Or.inr (Or.inl
        ((consonantShare_gt_iff text (by omega)).mpr hrat))
    · exact Or.inr (Or.inr ((hasTripleRepeat_iff text.data).mp hrun))
  · rintro ⟨h2, hd⟩
    refine ⟨h2, ?_⟩
    rcases hd with hv | hrat | hrun
    · exact Or.inl (Or.inl hv)
    · exact Or.inl (Or.inr
        ((consonantShare_gt_iff text (by omega)).mp hrat))
    · exact Or.inr ((hasTripleRepeat_iff text.data).mpr hrun)

/-- Counterexample to C4 as stated: `"ab\n\n\n"` has length 5 and a run
of three identical consecutive characters (newlines), yet `isGibberish`
returns `false` — the `/(.)\1{2,}/` pattern never matches a line
terminator, so the claimed equivalence fails at this input. -/
theorem isGibberish_run_claim_cex :
    ¬ (isGibberish "ab\n\n\n" = true ↔
        2 ≤ ("ab\n\n\n" : String).length ∧
          (vowelCount "ab\n\n\n" = 0 ∨ consonantShare "ab\n\n\n" > 0.8 ∨
            HasRunOfThree ("ab\n\n\n" : String).data)) := by
  intro h
  have htrue : isGibberish "ab\n\n\n" = true :=
    h.mpr ⟨by decide, Or.inr (Or.inr ⟨['a', 'b'], '\n', [], by decide⟩)⟩
  have hfalse : isGibberish "ab\n\n\n" = false := by decide
  rw [hfalse] at htrue
  exact Bool.false_ne_true htrue

/-! ## C3: the honeypot short-circuits the pipeline -/

/-- C3: a parsed POST whose honeypot field `website` is non-empty and not
whitespace-only is answered with the spam-detected error (400) before
anything else runs: the outcome is the same for every configuration,
every rate-limit store (which is returned unchanged — no rate-limit
call), every collaborator and every value of the other fields, and no
captcha or dispatch call is made. -/
theorem contactForm_honeypot_short_circuit
    (cfg : HandlerConfig) (req : HandlerRequest) (store : RateLimitStore)
    (now : Nat) (verify : String → CaptchaResult)
    (send : EmailMessage → Except String Unit) (submittedAt : String)
    (fd : ContactFormData) (w : String)
    (hpost : req.method = "POST") (hbody : req.body = some fd)
    (hw : fd.website = some w) (hwne : trimString w ≠ "") :
    contactForm cfg req store now verify send submittedAt =
      ⟨400, .errorMsg "Spam detected", store, [], []⟩ := by
  have hne : w ≠ "" := by
    intro h
    exact hwne (by rw [h]; decide)
  unfold contactForm
  rw [hpost, hbody]
  simp [truthy, hw, hwne, hne]

/-- Witness for C3: a submission whose every other field is absent (hence
invalid) and whose honeypot field holds `"http://spam.biz"` is rejected
as spam with the store untouched and no collaborator call. -/
theorem contactForm_honeypot_short_circuit_witness :
    contactForm testConfig (postReq spamSubmission) emptyStore 0
      passVerify okSend "t" =
      ⟨400, .errorMsg "Spam detected", emptyStore, [], []⟩ :=
  contactForm_honeypot_short_circuit testConfig (postReq spamSubmission)
    emptyStore 0 passVerify okSend "t" spamSubmission "http://spam.biz"
    rfl rfl rfl (by decide)

/-! ## The pipeline up to the captcha stage -/

/-- When every check between the honeypot and the URL filter passes and
the rate limit allows the request, the handler reduces to the captcha
stage run on the post-rate-limit store. -/
theorem contactForm_reaches_captcha
    (cfg : HandlerConfig) (req : HandlerRequest) (store : RateLimitStore)
    (now : Nat) (verify : String → CaptchaResult)
    (send : EmailMessage → Except String Unit) (submittedAt : String)
    (fd : ContactFormData)
    (hpost : req.method = "POST") (hbody : req.body = some fd)
    (hfc : passesFieldChecks fd)
    (hrate : (checkRateLimit store now (clientIpOf req) 3 60000).1 = true)
    (hdesc : (truthy fd.description &&
      containsUrls (fd.description.getD "")) = false) :
    contactForm cfg req store now verify send submittedAt =
      captchaStage cfg fd (clientIpOf req)
        (checkRateLimit store now (clientIpOf req) 3 60000).2
        verify send submittedAt := by
  obtain ⟨h1, h2, h3, h4, h5, h6, h7, h8⟩ := hfc
  have hrate' :
      (checkRateLimit store now
        (truthyOr req.xForwardedFor (truthyOr req.xRealIp "unknown"))
        3 60000).1 = true := by
    simpa [clientIpOf] using hrate
  unfold contactForm clientIpOf
  rw [hpost, hbody]
  simp only [h1, h2, h3, h4, h5, h6, h7, h8, hdesc, hrate']
  simp

/-- The URL scan never matches in the empty string. -/
theorem containsUrls_ne_empty (d : String) (h : containsUrls d = true) :
    d ≠ "" := by
  intro he
  rw [he] at h
  exact absurd h (by decide)

/-! ## C5: a URL-bearing description is rejected with no dispatch -/

/-- C5: a submission that passes every earlier check but whose
description contains a URL-like token is answered 400 with the
URL-spam error, and no dispatch call (and no captcha call) is made. -/
theorem contactForm_url_description_rejected
    (cfg : HandlerConfig) (req : HandlerRequest) (store : RateLimitStore)
    (now : Nat) (verify : String → CaptchaResult)
    (send : EmailMessage → Except String Unit) (submittedAt : String)
    (fd : ContactFormData) (d : String)
    (hpost : req.method = "POST") (hbody : req.body = some fd)
    (hfc : passesFieldChecks fd)
    (hrate : (checkRateLimit store now (clientIpOf req) 3 60000).1 = true)
    (hd : fd.description = some d) (hurl : containsUrls d = true) :
    contactForm cfg req store now verify send submittedAt =
      ⟨400, .errorMsg "URLs are not allowed in the description",
        (checkRateLimit store now (clientIpOf req) 3 60000).2, [], []⟩ := by
  obtain ⟨h1, h2, h3, h4, h5, h6, h7, h8⟩ := hfc
  have hne : d ≠ "" := containsUrls_ne_empty d hurl
  have hdesc : (truthy fd.description &&
      containsUrls (fd.description.getD "")) = true := by
    rw [hd]
    simp [truthy, hne, hurl]
  have hrate' :
      (checkRateLimit store now
        (truthyOr req.xForwardedFor (truthyOr req.xRealIp "unknown"))
        3 60000).1 = true := by
    simpa [clientIpOf] using hrate
  unfold contactForm clientIpOf
  rw [hpost, hbody]
  simp only [h1, h2, h3, h4, h5, h6, h7, h8, hdesc, hrate']
  simp

/-- Witness for C5 at the example input given by the specification. -/
theorem contactForm_url_description_rejected_witness :
    contactForm testConfig (postReq urlSubmission) emptyStore 0
      passVerify okSend "t" =
      ⟨400, .errorMsg "URLs are not allowed in the description",
        (checkRateLimit emptyStore 0 (clientIpOf (postReq urlSubmission))
          3 60000).2, [], []⟩ :=
  contactForm_url_description_rejected testConfig (postReq urlSubmission)
    emptyStore 0 passVerify okSend "t" urlSubmission
    "Check out http://example.com" rfl rfl (by decide) (by decide) rfl
    (by decide)

/-! ## Lemmas about the dispatch stage -/

/-- With a configured connection string and a successful send, the
dispatch stage returns 200 with exactly the one built message
dispatched. -/
theorem emailStage_success (cfg : HandlerConfig) (fd : ContactFormData)
    (clientIp : String) (store : RateLimitStore)
    (send : EmailMessage → Except String Unit) (submittedAt : String)
    (hconn : truthy cfg.acsConnectionString = true)
    (hsend : send (buildEmailMessage cfg fd clientIp submittedAt) =
      Except.ok ()) :
    emailStage cfg fd clientIp store send submittedAt =
      ⟨200, .success, store,
        [buildEmailMessage cfg fd clientIp submittedAt], []⟩ := by
  unfold emailStage
  rw [hconn]
  simp [hsend]

/-- The dispatch stage never answers with the captcha-failure body. -/
theorem emailStage_body_ne_captcha (cfg : HandlerConfig)
    (fd : ContactFormData) (clientIp : String) (store : RateLimitStore)
    (send : EmailMessage → Except String Unit) (submittedAt : String) :
    (emailStage cfg fd clientIp store send submittedAt).body ≠
      .errorMsg "reCAPTCHA validation failed" := by
  unfold emailStage
  by_cases hc : truthy cfg.acsConnectionString = true
  · rw [hc]
    cases hs : send (buildEmailMessage cfg fd clientIp submittedAt) <;>
      simp [hs]
  · rw [Bool.not_eq_true] at hc
    rw [hc]
    simp

/-- The dispatch stage makes no captcha call. -/
theorem emailStage_captchaCalls_nil (cfg : HandlerConfig)
    (fd : ContactFormData) (clientIp : String) (store : RateLimitStore)
    (send : EmailMessage → Except String Unit) (submittedAt : String) :
    (emailStage cfg fd clientIp store send submittedAt).captchaCalls
      = [] := by
  unfold emailStage
  by_cases hc : truthy cfg.acsConnectionString = true
  · rw [hc]
    cases hs : send (buildEmailMessage cfg fd clientIp submittedAt) <;>
      simp [hs]
  · rw [Bool.not_eq_true] at hc
    rw [hc]
    simp

/-! ## C1: the happy path dispatches exactly once -/

/-- C1: a POST with a parseable body, no captcha token, a clear honeypot,
a non-blocklisted email, the six required fields present and within
their limits, valid formats, non-gibberish names, a URL-free (or absent)
description and an identifier under its rate limit is answered 200 with
the success acknowledgment, and exactly one dispatch call is made to the
email collaborator, whose recipients are the configured recipient list
(given the environment preconditions of a dispatch: a configured
connection string and a dispatcher that reports success). -/
theorem contactForm_success_dispatch
    (cfg : HandlerConfig) (req : HandlerRequest) (store : RateLimitStore)
    (now : Nat) (verify : String → CaptchaResult)
    (send : EmailMessage → Except String Unit) (submittedAt : String)
    (fd : ContactFormData)
    (hpost : req.method = "POST") (hbody : req.body = some fd)
    (hfc : passesFieldChecks fd)
    (hrate : (checkRateLimit store now (clientIpOf req) 3 60000).1 = true)
    (hdesc : (truthy fd.description &&
      containsUrls (fd.description.getD "")) = false)
    (htok : truthy fd.recaptchaToken = false)
    (hconn : truthy cfg.acsConnectionString = true)
    (hsend : ∀ m, send m = Except.ok ()) :
    contactForm cfg req store now verify send submittedAt =
      ⟨200, .success, (checkRateLimit store now (clientIpOf req) 3 60000).2,
        [buildEmailMessage cfg fd (clientIpOf req) submittedAt], []⟩ ∧
    (buildEmailMessage cfg fd (clientIpOf req) submittedAt).recipients =
      RECIPIENT_ADDRESSES := by
  rw [contactForm_reaches_captcha cfg req store now verify send submittedAt
    fd hpost hbody hfc hrate hdesc]
  unfold captchaStage
  rw [htok]
  refine ⟨?_, rfl⟩
  rw [emailStage_success cfg fd (clientIpOf req) _ send submittedAt hconn
    (hsend _)]
  simp

/-- Witness for C1: the well-formed fixture submission against the
configured environment. -/
theorem contactForm_success_dispatch_witness :
    contactForm testConfig (postReq goodSubmission) emptyStore 0
      passVerify okSend "t" =
      ⟨200, .success,
        (checkRateLimit emptyStore 0 (clientIpOf (postReq goodSubmission))
          3 60000).2,
        [buildEmailMessage testConfig goodSubmission
          (clientIpOf (postReq goodSubmission)) "t"], []⟩ ∧
    (buildEmailMessage testConfig goodSubmission
      (clientIpOf (postReq goodSubmission)) "t").recipients =
      RECIPIENT_ADDRESSES :=
  contactForm_success_dispatch testConfig (postReq goodSubmission)
    emptyStore 0 passVerify okSend "t" goodSubmission rfl rfl (by decide)
    (by decide) (by decide) rfl rfl (fun _ => rfl)

/-! ## C6: the captcha configuration gate -/

/-- C6: at the captcha step, a present (truthy) token with an
unconfigured secret key fails the request with the
service-misconfigured 500 — it is not silently skipped — while an
absent (falsy) token skips the captcha step entirely (the outcome is
the email stage itself, independent of the verifier, with no captcha
call made). -/
theorem contactForm_captcha_config_gate
    (cfg : HandlerConfig) (req : HandlerRequest) (store : RateLimitStore)
    (now : Nat) (verify : String → CaptchaResult)
    (send : EmailMessage → Except String Unit) (submittedAt : String)
    (fd : ContactFormData)
    (hpost : req.method = "POST") (hbody : req.body = some fd)
    (hfc : passesFieldChecks fd)
    (hrate : (checkRateLimit store now (clientIpOf req) 3 60000).1 = true)
    (hdesc : (truthy fd.description &&
      containsUrls (fd.description.getD "")) = false) :
    (truthy fd.recaptchaToken = true →
      truthy cfg.recaptchaSecretKey = false →
      contactForm cfg req store now verify send submittedAt =
        ⟨500, .errorMsg "reCAPTCHA not configured",
          (checkRateLimit store now (clientIpOf req) 3 60000).2, [], []⟩) ∧
    (truthy fd.recaptchaToken = false →
      contactForm cfg req store now verify send submittedAt =
        emailStage cfg fd (clientIpOf req)
          (checkRateLimit store now (clientIpOf req) 3 60000).2 send
          submittedAt ∧
      (contactForm cfg req store now verify send
        submittedAt).captchaCalls = []) := by
  rw [contactForm_reaches_captcha cfg req store now verify send submittedAt
    fd hpost hbody hfc hrate hdesc]
  unfold captchaStage
  constructor
  · intro htok hsec
    rw [htok, hsec]
    simp
  · intro htok
    rw [htok]
    refine ⟨by simp, ?_⟩
    simp only [Bool.false_eq_true, if_false]
    exact emailStage_captchaCalls_nil cfg fd (clientIpOf req) _ send
      submittedAt

/-- Witness for C6: with a token and no secret the fixture request gets
the 500 misconfiguration answer; without a token the handler equals the
email stage and makes no captcha call. -/
theorem contactForm_captcha_config_gate_witness :
    contactForm noSecretConfig (postReq tokenSubmission) emptyStore 0
      passVerify okSend "t" =
      ⟨500, .errorMsg "reCAPTCHA not configured",
        (checkRateLimit emptyStore 0
          (clientIpOf (postReq tokenSubmission)) 3 60000).2, [], []⟩ ∧
    contactForm testConfig (postReq goodSubmission) emptyStore 0
      passVerify okSend "t" =
      emailStage testConfig goodSubmission
        (clientIpOf (postReq goodSubmission))
        (checkRateLimit emptyStore 0
          (clientIpOf (postReq goodSubmission)) 3 60000).2 okSend "t" :=
  ⟨(contactForm_captcha_config_gate noSecretConfig
      (postReq tokenSubmission) emptyStore 0 passVerify okSend "t"
      tokenSubmission rfl rfl (by decide) (by decide) (by decide)).1
      (by decide) rfl,
   ((contactForm_captcha_config_gate testConfig (postReq goodSubmission)
      emptyStore 0 passVerify okSend "t" goodSubmission rfl rfl
      (by decide) (by decide) (by decide)).2 rfl).1⟩

/-! ## C7: the captcha acceptance threshold -/

/-- C7: at the captcha step with a present token and a configured
secret, the handler answers with the captcha-failed error (status 400)
exactly when the verification result has `success = false` or a score
below `0.5`; with `success = true` and a score of at least `0.5` the
pipeline proceeds to the dispatch stage (recording the one captcha
call). -/
theorem contactForm_captcha_threshold
    (cfg : HandlerConfig) (req : HandlerRequest) (store : RateLimitStore)
    (now : Nat) (verify : String → CaptchaResult)
    (send : EmailMessage → Except String Unit) (submittedAt : String)
    (fd : ContactFormData) (t : String)
    (hpost : req.method = "POST") (hbody : req.body = some fd)
    (hfc : passesFieldChecks fd)
    (hrate : (checkRateLimit store now (clientIpOf req) 3 60000).1 = true)
    (hdesc : (truthy fd.description &&
      containsUrls (fd.description.getD "")) = false)
    (htok : fd.recaptchaToken = some t) (htne : t ≠ "")
    (hsec : truthy cfg.recaptchaSecretKey = true) :
    (((contactForm cfg req store now verify send submittedAt).status = 400 ∧
      (contactForm cfg req store now verify send submittedAt).body =
        .errorMsg "reCAPTCHA validation failed") ↔
      ((verify t).success = false ∨ (verify t).score < 1 / 2)) ∧
    ((verify t).success = true → 1 / 2 ≤ (verify t).score →
      contactForm cfg req store now verify send submittedAt =
        { emailStage cfg fd (clientIpOf req)
            (checkRateLimit store now (clientIpOf req) 3 60000).2 send
            submittedAt with captchaCalls := [t] }) := by
  rw [contactForm_reaches_captcha cfg req store now verify send submittedAt
    fd hpost hbody hfc hrate hdesc]
  unfold captchaStage
  have htr : truthy fd.recaptchaToken = true := by
    rw [htok]
    simpa [truthy] using htne
  rw [htr, hsec, htok]
  simp only [Option.getD_some, if_true, Bool.not_true, Bool.false_eq_true,
    if_false]
  by_cases hbad : (verify t).success = false ∨ (verify t).score < 1 / 2
  · have hcond : (!(verify t).success ||
        decide ((verify t).score < 1 / 2)) = true := by
      rcases hbad with hs | hs
      · rw [hs]
        rfl
      · rw [decide_eq_true hs]
        exact Bool.or_true _
    rw [hcond, if_pos rfl]
    constructor
    · exact ⟨fun _ => hbad, fun _ => ⟨rfl, rfl⟩⟩
    · intro hsucc hscore
      rcases hbad with hs | hs
      · rw [hsucc] at hs
        exact absurd hs (by simp)
      · exact absurd hs (not_lt.mpr hscore)
  · have hsucc : (verify t).success = true := by
      cases hsv : (verify t).success
      · exact absurd (Or.inl hsv) hbad
      · rfl
    have hscore : ¬ (verify t).score < 1 / 2 :=
      fun hs => hbad (Or.inr hs)
    have hcond : (!(verify t).success ||
        decide ((verify t).score < 1 / 2)) = false := by
      rw [hsucc]
      simp only [Bool.not_true, Bool.false_or]
      exact decide_eq_false hscore
    rw [hcond]
    simp only [Bool.false_eq_true, if_false]
    constructor
    · constructor
      · rintro ⟨-, hb⟩
        exact absurd hb (emailStage_body_ne_captcha cfg fd (clientIpOf req)
          _ send submittedAt)
      · intro hb
        exact absurd hb hbad
    · intro _ _
      trivial

/-- Witness for C7: with the fixture token submission, a low-score
verifier yields the captcha-failed body, and the always-accepting
verifier lets the pipeline proceed to the dispatch stage with the one
captcha call recorded. -/
theorem contactForm_captcha_threshold_witness :
    (contactForm testConfig (postReq tokenSubmission) emptyStore 0
        lowScoreVerify okSend "t").body =
      .errorMsg "reCAPTCHA validation failed" ∧
    contactForm testConfig (postReq tokenSubmission) emptyStore 0
        passVerify okSend "t" =
      { emailStage testConfig tokenSubmission
          (clientIpOf (postReq tokenSubmission))
          (checkRateLimit emptyStore 0
            (clientIpOf (postReq tokenSubmission)) 3 60000).2 okSend "t"
        with captchaCalls := ["tok"] } :=
  ⟨((contactForm_captcha_threshold testConfig (postReq tokenSubmission)
      emptyStore 0 lowScoreVerify okSend "t" tokenSubmission "tok" rfl rfl
      (by decide) (by decide) (by decide) rfl (by decide) (by decide)).1.mpr
      (Or.inr (by norm_num [lowScoreVerify]))).2,
   (contactForm_captcha_threshold testConfig (postReq tokenSubmission)
      emptyStore 0 passVerify okSend "t" tokenSubmission "tok" rfl rfl
      (by decide) (by decide) (by decide) rfl (by decide) (by decide)).2
      rfl (by norm_num [passVerify])⟩

end Contact
